import Mathlib

/-
Verification development for the school-management-app frontend.

Shallow embedding of the parts of the source the claims are about:
  * src/src/features/auth/slices/authSlice.js   (storage helpers, error
    extraction, prepareUserData, the four auth thunks and the reducers)
  * src/src/api/axios.js                        (CSRF request interceptor)
  * src/unnamed/part_000                        (useSecteursLogic hook)
  * src/unnamed/part_001                        (SecteursService)

Modelling conventions:
  * JavaScript values that may be null/undefined are modelled as Option.
  * JavaScript string truthiness (empty string is falsy) is modelled by
    jsOrStr; boolean-or-undefined truthiness by jsTruthy.
  * toLowerCase is modelled character-wise via Char.toLower, and
    String.prototype.includes via substring containment on character
    lists; localeCompare is modelled as code-point comparison of the
    lowered strings (no claim depends on the locale-specific order).
  * async functions are modelled as total functions taking the outcome of
    each awaited network call as an explicit argument; a function that can
    only resolve (never throw) returns an ordinary value.
-/

/-- JavaScript `a || b` for strings: the empty string is falsy. -/
def jsOrStr (a b : String) : String :=
  if a.isEmpty then b else a

/-- JavaScript truthiness of a boolean that may be undefined (`none`). -/
def jsTruthy : Option Bool → Bool
  | some b => b
  | none => false

/-- JavaScript `v || b` where `v` is a possibly-absent string (for chains
such as `error.response?.data?.message || error.message`). -/
def jsOptOrStr (a : Option String) (b : String) : String :=
  match a with
  | some s => jsOrStr s b
  | none => b

/-- Model of `String.prototype.toLowerCase` (character-wise lowering). -/
def jsToLower (s : String) : String :=
  String.mk (s.data.map Char.toLower)

/-- Substring containment on character lists, the core of
`String.prototype.includes`. -/
def charsContain (needle : List Char) : List Char → Bool
  | [] => needle.isEmpty
  | c :: rest => needle.isPrefixOf (c :: rest) || charsContain needle rest

/-- Model of `s.includes(sub)` on JavaScript strings. -/
def jsIncludes (s sub : String) : Bool :=
  charsContain sub.data s.data

/-- Model of `[...new Set(l)]`: distinct elements in first-occurrence
order (JavaScript Set iteration order is insertion order). -/
def jsSetDistinctAux [DecidableEq α] (seen : List α) : List α → List α
  | [] => []
  | a :: l => if a ∈ seen then jsSetDistinctAux seen l else a :: jsSetDistinctAux (a :: seen) l

/-- Model of `[...new Set(l)]`. -/
def jsSetDistinct [DecidableEq α] (l : List α) : List α :=
  jsSetDistinctAux [] l

/- ------------------------------------------------------------------ -/
/- Secteurs hook (src/unnamed/part_000): entities, search, filters,   -/
/- sorting.                                                           -/
/- ------------------------------------------------------------------ -/

/-- A secteur record as the hook reads it; fields may be absent in the
backend payload, hence Option. -/
structure Secteur where
  id : Nat
  code : Option String
  intitule : Option String
  secteur : Option String
  deriving DecidableEq, Repr

/-- Dynamic field access `s[key]` for the fields this screen uses. -/
def sGet (s : Secteur) (key : String) : Option String :=
  if key == "intitule" then s.intitule
  else if key == "secteur" then s.secteur
  else if key == "code" then s.code
  else none

/-- One column filter of the hook: `{ key, value, placeholder, options }`. -/
structure ColumnFilter where
  key : String
  value : String
  placeholder : String
  options : List (Option String)
  deriving DecidableEq, Repr

/-- The hook's sort configuration `{ key, direction }`. -/
structure SortConfig where
  key : String
  direction : String
  deriving DecidableEq, Repr

/-- The search predicate from applyFiltersAndSorting:
`secteur.intitule?.toLowerCase().includes(searchTerm.toLowerCase())`;
an absent intitule makes the optional chain undefined, hence falsy. -/
def matchesSearch (searchTerm : String) (s : Secteur) : Bool :=
  match s.intitule with
  | some t => jsIncludes (jsToLower t) (jsToLower searchTerm)
  | none => false

/-- The `if (searchTerm)` stage of applyFiltersAndSorting (an empty
search term is falsy, so the stage is skipped). -/
def searchStep (searchTerm : String) (l : List Secteur) : List Secteur :=
  if !searchTerm.isEmpty then l.filter (matchesSearch searchTerm) else l

/-- One iteration of the `filters.forEach` loop: filters with a falsy
(empty) value are skipped, otherwise exact match on the filter key. -/
def filterStep (f : ColumnFilter) (l : List Secteur) : List Secteur :=
  if !f.value.isEmpty then l.filter (fun s => sGet s f.key == some f.value) else l

/-- The whole `filters.forEach` loop of applyFiltersAndSorting. -/
def filtersStep (fs : List ColumnFilter) (l : List Secteur) : List Secteur :=
  fs.foldl (fun acc f => filterStep f acc) l

/-- Sort key extraction: `a[sortConfig.key]?.toLowerCase() || ''`. -/
def sortValue (sc : SortConfig) (s : Secteur) : String :=
  jsOptOrStr ((sGet s sc.key).map jsToLower) ""

/-- The comparator of applyFiltersAndSorting as a boolean
keep-in-order relation (comparator result less than or equal to zero);
localeCompare is modelled as code-point comparison, and an unknown
direction yields the always-zero comparator of the source. -/
def sortLe (sc : SortConfig) (a b : Secteur) : Bool :=
  if sc.direction == "asc" then decide (sortValue sc a ≤ sortValue sc b)
  else if sc.direction == "desc" then decide (sortValue sc b ≤ sortValue sc a)
  else true

/-- The `result.sort(...)` stage (Array.prototype.sort is stable). -/
def sortStep (sc : SortConfig) (l : List Secteur) : List Secteur :=
  l.mergeSort (sortLe sc)

/-- applyFiltersAndSorting from the hook: search stage, then the filter
loop, then the sort, applied to the loaded list. -/
def applyFiltersAndSorting (secteurs : List Secteur) (searchTerm : String)
    (fs : List ColumnFilter) (sc : SortConfig) : List Secteur :=
  sortStep sc (filtersStep fs (searchStep searchTerm secteurs))

/-- handleSort from the hook: selecting a column makes it the sort key;
the direction is desc exactly when the same column was already the key
with direction asc, otherwise asc. -/
def handleSort (prev : SortConfig) (column : String) : SortConfig :=
  { key := column
    direction := if prev.key == column && prev.direction == "asc" then "desc" else "asc" }

/- ------------------------------------------------------------------ -/
/- Auth slice (authSlice.js): user preparation and error extraction.  -/
/- ------------------------------------------------------------------ -/

/-- The backend user payload from GET /user, as prepareUserData reads
it; roles and permissions may be absent or null, hence Option. -/
structure LaravelUser where
  id : Nat
  name : String
  email : String
  roles : Option (List String)
  permissions : Option (List String)
  deriving DecidableEq, Repr

/-- The user record the slice stores. -/
structure User where
  id : Nat
  name : String
  email : String
  roles : List String
  permissions : List String
  deriving DecidableEq, Repr

/-- prepareUserData from authSlice.js: a null/undefined payload (none)
yields null; otherwise roles and permissions default to the empty array
(`laravelUser.roles || []` — a present array, even empty, is truthy and
kept; null/undefined is replaced by []). -/
def prepareUserData : Option LaravelUser → Option User
  | none => none
  | some lu =>
      some { id := lu.id
             name := lu.name
             email := lu.email
             roles := lu.roles.getD []
             permissions := lu.permissions.getD [] }

/-- The body of a structured Laravel error response
(`error.response.data`): optional validation map and optional general
message. Object.values over the errors object is modelled by keeping
the field order of the association list; the source filters out
non-string messages, which the typed model makes the identity. -/
structure LaravelErrorData where
  errors : Option (List (String × List String))
  message : Option String
  deriving DecidableEq, Repr

/-- An error reaching a thunk's catch block: `response` models
`error.response?.data` (none when there is no response or no data), and
`message` models `error.message`. -/
structure ApiError where
  response : Option LaravelErrorData
  message : String
  deriving DecidableEq, Repr

/-- getLaravelErrorMessage from authSlice.js: flatten and space-join all
validation messages when `errors` is present; else the truthy general
`message`; else `error.message || defaultMessage`. -/
def getLaravelErrorMessage (error : ApiError) (defaultMessage : String) : String :=
  match error.response with
  | some data =>
      match data.errors with
      | some errs => String.intercalate " " (errs.map Prod.snd).flatten
      | none =>
          match data.message with
          | some m => if !m.isEmpty then m else jsOrStr error.message defaultMessage
          | none => jsOrStr error.message defaultMessage
  | none => jsOrStr error.message defaultMessage

/- ------------------------------------------------------------------ -/
/- Browser storage model and the storage helpers of authSlice.js.     -/
/- ------------------------------------------------------------------ -/

/-- One storage scope (localStorage or sessionStorage) restricted to the
two keys this slice uses: the user record and the remember_me record. -/
structure StorageScope where
  user : Option User
  rememberMe : Option Bool
  deriving DecidableEq, Repr

/-- The two browser storage scopes. -/
structure BrowserStorage where
  localStorage : StorageScope
  sessionStorage : StorageScope
  deriving DecidableEq, Repr

/-- Fresh browser storage: both scopes empty. -/
def emptyStorage : BrowserStorage :=
  { localStorage := { user := none, rememberMe := none }
    sessionStorage := { user := none, rememberMe := none } }

/-- setStorageItem(STORAGE_KEYS.USER, value, rememberMe): getStorage
selects localStorage when rememberMe is truthy, sessionStorage when it
is false or omitted (none). -/
def setStorageUser (st : BrowserStorage) (u : User) (rememberMe : Option Bool) : BrowserStorage :=
  if jsTruthy rememberMe then
    { st with localStorage := { st.localStorage with user := some u } }
  else
    { st with sessionStorage := { st.sessionStorage with user := some u } }

/-- removeStorageItem(STORAGE_KEYS.USER, rememberMe). -/
def removeStorageUser (st : BrowserStorage) (rememberMe : Option Bool) : BrowserStorage :=
  if jsTruthy rememberMe then
    { st with localStorage := { st.localStorage with user := none } }
  else
    { st with sessionStorage := { st.sessionStorage with user := none } }

/-- setStorageItem(STORAGE_KEYS.REMEMBER_ME, value, rememberMe). Every
call site of the source omits the third argument, so the value in fact
lands in sessionStorage; the scope argument is kept to mirror the
helper's signature. -/
def setStorageRemember (st : BrowserStorage) (v : Bool) (rememberMe : Option Bool) : BrowserStorage :=
  if jsTruthy rememberMe then
    { st with localStorage := { st.localStorage with rememberMe := some v } }
  else
    { st with sessionStorage := { st.sessionStorage with rememberMe := some v } }

/-- removeStorageItem(STORAGE_KEYS.REMEMBER_ME, rememberMe); the source
always omits the scope argument, selecting sessionStorage. -/
def removeStorageRemember (st : BrowserStorage) (rememberMe : Option Bool) : BrowserStorage :=
  if jsTruthy rememberMe then
    { st with localStorage := { st.localStorage with rememberMe := none } }
  else
    { st with sessionStorage := { st.sessionStorage with rememberMe := none } }

/-- getStorageItem(STORAGE_KEYS.REMEMBER_ME, rememberMe). -/
def getStorageRemember (st : BrowserStorage) (rememberMe : Option Bool) : Option Bool :=
  if jsTruthy rememberMe then st.localStorage.rememberMe else st.sessionStorage.rememberMe

/- ------------------------------------------------------------------ -/
/- Session state, thunks, reducers.                                   -/
/- ------------------------------------------------------------------ -/

/-- The Redux auth slice state. -/
structure Session where
  user : Option User
  isAuthenticated : Bool
  rememberMe : Bool
  status : String
  error : Option String
  deriving DecidableEq, Repr

/-- The payload of a fulfilled auth thunk (`isAuthenticated: true` is
constant in the source payloads and omitted here). -/
structure AuthPayload where
  user : User
  rememberMe : Bool
  deriving DecidableEq, Repr

/-- Resolution of an auth thunk: fulfilled with a payload, or rejected
with the rejectWithValue string. -/
inductive ThunkResult where
  | fulfilled (p : AuthPayload)
  | rejectedWith (value : String)
  deriving DecidableEq, Repr

/-- The four thunks, used to drive the shared rejected matcher. -/
inductive AuthOp where
  | signup
  | login
  | checkAuth
  | logoutUser
  deriving DecidableEq, Repr

/-- The login thunk body. Arguments: the current storage, the
credentials' rememberMe (none models an omitted field, defaulted to
false by the destructuring), the outcome of POST /login (some err =
rejected promise), and the outcome of the profile fetch. On success the
remember_me record is written (scope argument omitted in the source),
the opposite scope's user record is removed, and the user record is
written to the chosen scope. -/
def loginThunk (st : BrowserStorage) (rememberMe : Option Bool)
    (postOutcome : Option ApiError)
    (userOutcome : Except ApiError (Option LaravelUser)) :
    BrowserStorage × ThunkResult :=
  match postOutcome with
  | some err => (st, .rejectedWith (getLaravelErrorMessage err "Login failed. Please check your credentials."))
  | none =>
      match userOutcome with
      | .error err => (st, .rejectedWith (getLaravelErrorMessage err "Login failed. Please check your credentials."))
      | .ok payload =>
          match prepareUserData payload with
          | none => (st, .rejectedWith "User data not found after login.")
          | some user =>
              let rm := jsTruthy rememberMe
              let st1 := setStorageRemember st rm none
              let st2 := if rm then removeStorageUser st1 (some false)
                         else removeStorageUser st1 (some true)
              (setStorageUser st2 user (some rm), .fulfilled { user := user, rememberMe := rm })

/-- The signup thunk body: POST /register, then the profile fetch; on
success rememberMe defaults to true, the remember_me record is written
(scope argument omitted in the source) and the user record is written to
localStorage — no removal from the other scope. -/
def signupThunk (st : BrowserStorage) (registerOutcome : Option ApiError)
    (userOutcome : Except ApiError (Option LaravelUser)) :
    BrowserStorage × ThunkResult :=
  match registerOutcome with
  | some err => (st, .rejectedWith (getLaravelErrorMessage err "Signup failed. Please try again."))
  | none =>
      match userOutcome with
      | .error err => (st, .rejectedWith (getLaravelErrorMessage err "Signup failed. Please try again."))
      | .ok payload =>
          match prepareUserData payload with
          | none => (st, .rejectedWith "User data not found after signup.")
          | some user =>
              let st1 := setStorageRemember st true none
              (setStorageUser st1 user (some true), .fulfilled { user := user, rememberMe := true })

/-- The storage clearing of checkAuth's catch block: user record removed
from both scopes, remember_me removed with the scope argument omitted. -/
def checkAuthClear (st : BrowserStorage) : BrowserStorage :=
  removeStorageRemember (removeStorageUser (removeStorageUser st (some true)) (some false)) none

/-- The checkAuth thunk body: on a successful profile fetch with user
data, rememberMe is read from localStorage (`|| false`) and the user
record refreshed in the chosen scope — no removal from the other scope;
on any failure (including missing user data) both scopes' user records
and the remember_me record are cleared and the thunk resolves to the
fixed rejection value (it never throws). -/
def checkAuthThunk (st : BrowserStorage)
    (userOutcome : Except ApiError (Option LaravelUser)) :
    BrowserStorage × ThunkResult :=
  match userOutcome with
  | .ok payload =>
      match prepareUserData payload with
      | some user =>
          let rm := (getStorageRemember st (some true)).getD false
          (setStorageUser st user (some rm), .fulfilled { user := user, rememberMe := rm })
      | none => (checkAuthClear st, .rejectedWith "User not authenticated.")
  | .error _ => (checkAuthClear st, .rejectedWith "User not authenticated.")

/-- The logoutClient reducer's storage side effects: user record removed
from both scopes; the remember_me removal omits the scope argument and
therefore targets sessionStorage (the comment in the source says
localStorage, but the call selects the tab scope). -/
def logoutClientStorage (st : BrowserStorage) : BrowserStorage :=
  removeStorageRemember (removeStorageUser (removeStorageUser st (some true)) (some false)) none

/-- The logoutClient reducer's state reset. -/
def logoutClientReducer (_s : Session) : Session :=
  { user := none, isAuthenticated := false, rememberMe := false
    status := "idle", error := none }

/-- The shared pending matcher: status loading, error cleared. -/
def pendingReducer (s : Session) : Session :=
  { s with status := "loading", error := none }

/-- The shared fulfilled matcher for login and signup (it does not touch
the error field). -/
def loginFulfilledReducer (s : Session) (p : AuthPayload) : Session :=
  { s with status := "succeeded", user := some p.user
           isAuthenticated := true, rememberMe := p.rememberMe }

/-- The checkAuth.fulfilled case (also clears the error field). -/
def checkAuthFulfilledReducer (s : Session) (p : AuthPayload) : Session :=
  { s with status := "succeeded", user := some p.user
           isAuthenticated := true, rememberMe := p.rememberMe, error := none }

/-- The logoutUser.fulfilled case. -/
def logoutFulfilledReducer (s : Session) : Session :=
  { s with status := "idle", error := none }

/-- The shared rejected matcher: status failed, error from the payload
(`action.payload || ...` — an empty payload string is falsy); for
signup/login/checkAuth the authentication fields are forced clear, for
logoutUser they are left as logoutClient set them. -/
def rejectedReducer (op : AuthOp) (s : Session) (payload : String) : Session :=
  let s1 := { s with status := "failed"
                     error := some (jsOrStr payload "An unknown error occurred.") }
  match op with
  | .logoutUser => s1
  | _ => { s1 with isAuthenticated := false, user := none, rememberMe := false }

/- ------------------------------------------------------------------ -/
/- Whole operations: pending dispatch, thunk body, result dispatch.   -/
/- ------------------------------------------------------------------ -/

/-- dispatch(login(credentials)) end to end. -/
def loginOp (st : BrowserStorage) (sess : Session) (rememberMe : Option Bool)
    (postOutcome : Option ApiError)
    (userOutcome : Except ApiError (Option LaravelUser)) :
    BrowserStorage × Session :=
  let sess1 := pendingReducer sess
  match loginThunk st rememberMe postOutcome userOutcome with
  | (st2, .fulfilled p) => (st2, loginFulfilledReducer sess1 p)
  | (st2, .rejectedWith v) => (st2, rejectedReducer .login sess1 v)

/-- dispatch(signup(userData)) end to end. -/
def signupOp (st : BrowserStorage) (sess : Session)
    (registerOutcome : Option ApiError)
    (userOutcome : Except ApiError (Option LaravelUser)) :
    BrowserStorage × Session :=
  let sess1 := pendingReducer sess
  match signupThunk st registerOutcome userOutcome with
  | (st2, .fulfilled p) => (st2, loginFulfilledReducer sess1 p)
  | (st2, .rejectedWith v) => (st2, rejectedReducer .signup sess1 v)

/-- dispatch(checkAuth()) end to end. -/
def checkAuthOp (st : BrowserStorage) (sess : Session)
    (userOutcome : Except ApiError (Option LaravelUser)) :
    BrowserStorage × Session :=
  let sess1 := pendingReducer sess
  match checkAuthThunk st userOutcome with
  | (st2, .fulfilled p) => (st2, checkAuthFulfilledReducer sess1 p)
  | (st2, .rejectedWith v) => (st2, rejectedReducer .checkAuth sess1 v)

/-- dispatch(logoutUser()) end to end: the thunk dispatches logoutClient
in both the success and the failure branch before resolving, then the
fulfilled case sets status idle, the rejected matcher sets status failed
with the extracted message (without touching the already-cleared
authentication fields). -/
def logoutUserOp (st : BrowserStorage) (sess : Session)
    (postOutcome : Option ApiError) : BrowserStorage × Session :=
  let sess1 := pendingReducer sess
  let st1 := logoutClientStorage st
  let sess2 := logoutClientReducer sess1
  match postOutcome with
  | none => (st1, logoutFulfilledReducer sess2)
  | some err => (st1, rejectedReducer .logoutUser sess2 (getLaravelErrorMessage err "Logout failed."))

/-- The slice's initial state, computed from storage at module load:
remember_me is read from localStorage (`|| false`), the user record from
the scope that preference selects. -/
def initialSessionFrom (st : BrowserStorage) : Session :=
  let rm := (getStorageRemember st (some true)).getD false
  let u := if rm then st.localStorage.user else st.sessionStorage.user
  { user := u, isAuthenticated := u.isSome, rememberMe := rm
    status := "idle", error := none }

/-- Browser storages the auth slice can actually produce: empty at first
use, closed under the storage effects of the four operations (with every
possible network outcome). -/
inductive Reachable : BrowserStorage → Prop where
  | init : Reachable emptyStorage
  | login (st : BrowserStorage) (rm : Option Bool) (po : Option ApiError)
      (uo : Except ApiError (Option LaravelUser)) :
      Reachable st → Reachable (loginThunk st rm po uo).1
  | signup (st : BrowserStorage) (ro : Option ApiError)
      (uo : Except ApiError (Option LaravelUser)) :
      Reachable st → Reachable (signupThunk st ro uo).1
  | checkAuth (st : BrowserStorage) (uo : Except ApiError (Option LaravelUser)) :
      Reachable st → Reachable (checkAuthThunk st uo).1
  | logout (st : BrowserStorage) : Reachable st → Reachable (logoutClientStorage st)

/- ------------------------------------------------------------------ -/
/- HTTP client wrapper (src/src/api/axios.js): request interceptor.   -/
/- ------------------------------------------------------------------ -/

/-- An outgoing request configuration (method and url). -/
structure ReqConfig where
  method : String
  url : String
  deriving DecidableEq, Repr

/-- The methods the interceptor treats as state-changing. -/
def methodsRequiringCSRF : List String :=
  ["post", "put", "patch", "delete"]

/-- The CSRF priming endpoint path. -/
def csrfCookiePath : String :=
  "/sanctum/csrf-cookie"

/-- The priming GET request issued by the interceptor. -/
def csrfPrimingRequest : ReqConfig :=
  { method := "get", url := csrfCookiePath }

/-- The recursion guard `config.url.includes(...)`. -/
def urlIsCsrfCookie (url : String) : Bool :=
  jsIncludes url csrfCookiePath

/-- Outcome of the interceptor chain for one request. -/
inductive InterceptOutcome where
  | proceed (config : ReqConfig)
  | rejectedWith (msg : String)
  deriving DecidableEq, Repr

/-- The apiClient request interceptor together with the send of the
original request when the interceptor lets it proceed. primeOk is the
outcome of the awaited GET /sanctum/csrf-cookie. The first component is
the sequence of requests actually put on the wire, in order; the second
is the promise outcome seen by the caller. -/
def sendRequest (primeOk : Bool) (config : ReqConfig) : List ReqConfig × InterceptOutcome :=
  if methodsRequiringCSRF.contains (jsToLower config.method) then
    if !urlIsCsrfCookie config.url then
      if primeOk then ([csrfPrimingRequest, config], .proceed config)
      else ([csrfPrimingRequest], .rejectedWith "Failed to obtain CSRF token.")
    else ([config], .proceed config)
  else ([config], .proceed config)

/- ------------------------------------------------------------------ -/
/- useSecteursLogic hook state, loads and the delete confirmation.    -/
/- ------------------------------------------------------------------ -/

/-- The hook's state variables that the claims are about. -/
structure HookState where
  secteurs : List Secteur
  filteredSecteurs : List Secteur
  filters : List ColumnFilter
  searchTerm : String
  sortConfig : SortConfig
  isModalOpen : Bool
  isDeleteModalOpen : Bool
  secteurToDelete : Option Secteur
  selectedSecteur : Option Secteur
  viewMode : Bool
  deriving DecidableEq, Repr

/-- The hook's initial filters: one filter on the secteur column. -/
def initialFilters : List ColumnFilter :=
  [{ key := "secteur", value := "", placeholder := "Tous les secteurs", options := [] }]

/-- The hook's initial state. -/
def initialHookState : HookState :=
  { secteurs := [], filteredSecteurs := [], filters := initialFilters
    searchTerm := "", sortConfig := { key := "intitule", direction := "asc" }
    isModalOpen := false, isDeleteModalOpen := false
    secteurToDelete := none, selectedSecteur := none, viewMode := false }

/-- updateFilterOptions from the hook: only when the freshly loaded data
is nonempty (`data?.length > 0`) is the filter list replaced by the
singleton whose options are the distinct secteur values of the data; an
empty load leaves the filters untouched. The hook keeps the filter list
a singleton throughout; the empty-list case is unreachable there. -/
def updateFilterOptions (data : List Secteur) (filters : List ColumnFilter) :
    List ColumnFilter :=
  if data.length > 0 then
    match filters with
    | [] => []
    | f0 :: _ => [{ f0 with options := jsSetDistinct (data.map Secteur.secteur) }]
  else filters

/-- loadSecteurs from the hook, driven by the outcome of
SecteursService.getAll (which rethrows backend errors unchanged): on
success the authoritative list is replaced and the filter options
recomputed; on failure the state is left unchanged (the catch only
logs). -/
def loadSecteurs (st : HookState) (outcome : Except ApiError (List Secteur)) : HookState :=
  match outcome with
  | .ok data => { st with secteurs := data, filters := updateFilterOptions data st.filters }
  | .error _ => st

/-- Externally visible effects of a hook handler. -/
inductive HookEffect where
  | reloadList
  | alertMsg (text : String)
  deriving DecidableEq, Repr

/-- The alert prefix of the delete confirmation handler. -/
def deleteAlertPrefix : String :=
  "Erreur lors de la suppression du secteur: "

/-- handleDeleteConfirm from the hook, driven by the outcome of
SecteursService.delete (none = success; the service rethrows the
backend error unchanged). On success the modals are closed and a reload
of the authoritative list is triggered; on failure the state is left
untouched and an alert surfaces
`error.response?.data?.message || error.message` behind the prefix. -/
def handleDeleteConfirm (st : HookState) (deleteOutcome : Option ApiError) :
    HookState × List HookEffect :=
  match st.secteurToDelete with
  | none => (st, [])
  | some _ =>
      match deleteOutcome with
      | none =>
          ({ st with isDeleteModalOpen := false, secteurToDelete := none
                     isModalOpen := false, selectedSecteur := none, viewMode := false },
           [HookEffect.reloadList])
      | some err =>
          (st, [HookEffect.alertMsg
                  (deleteAlertPrefix ++ jsOptOrStr (err.response.bind LaravelErrorData.message) err.message)])

/- ------------------------------------------------------------------ -/
/- Concrete sample values used by witnesses and counterexamples.      -/
/- ------------------------------------------------------------------ -/

/-- A sample backend user payload. -/
def sampleLaravelUser : LaravelUser :=
  { id := 1, name := "A", email := "a@b.com"
    roles := some [], permissions := some ["view_secteurs"] }

/-- A transport-level failure: no response body, only an error message. -/
def sampleNetworkError : ApiError :=
  { response := none, message := "Network Error" }

/-- A structured Laravel validation failure. -/
def sampleValidationError : ApiError :=
  { response := some { errors := some [("email", ["The email field is required."])]
                       message := none }
    message := "Request failed with status code 422" }

/-- A backend failure carrying only a general message. -/
def sampleMessageError : ApiError :=
  { response := some { errors := none, message := some "Secteur in use." }
    message := "Request failed with status code 409" }

/-- A sample secteur record. -/
def sampleSecteur : Secteur :=
  { id := 1, code := some "T1", intitule := some "Tertiaire un", secteur := some "Tertiaire" }

/- ------------------------------------------------------------------ -/
/- Helper lemmas: no storage helper writes the remember_me record of  -/
/- the durable scope (every call site omits the scope argument).      -/
/- ------------------------------------------------------------------ -/

@[simp]
theorem setStorageUser_local_rememberMe (st : BrowserStorage) (u : User) (rm : Option Bool) :
    (setStorageUser st u rm).localStorage.rememberMe = st.localStorage.rememberMe := by
  unfold setStorageUser; split <;> rfl

@[simp]
theorem removeStorageUser_local_rememberMe (st : BrowserStorage) (rm : Option Bool) :
    (removeStorageUser st rm).localStorage.rememberMe = st.localStorage.rememberMe := by
  unfold removeStorageUser; split <;> rfl

@[simp]
theorem setStorageRemember_none_local_rememberMe (st : BrowserStorage) (v : Bool) :
    (setStorageRemember st v none).localStorage.rememberMe = st.localStorage.rememberMe := by
  rfl

@[simp]
theorem removeStorageRemember_none_local_rememberMe (st : BrowserStorage) :
    (removeStorageRemember st none).localStorage.rememberMe = st.localStorage.rememberMe := by
  rfl

@[simp]
theorem checkAuthClear_local_rememberMe (st : BrowserStorage) :
    (checkAuthClear st).localStorage.rememberMe = st.localStorage.rememberMe := by
  simp [checkAuthClear]

@[simp]
theorem logoutClientStorage_local_rememberMe (st : BrowserStorage) :
    (logoutClientStorage st).localStorage.rememberMe = st.localStorage.rememberMe := by
  simp [logoutClientStorage]

/-- Invariant of every reachable browser storage: the auth slice never
writes the remember_me record into the durable scope (all its
setStorageItem calls for that key omit the scope argument and therefore
target the tab scope), so localStorage never holds it. -/
theorem reachable_local_rememberMe_none (st : BrowserStorage) (h : Reachable st) :
    st.localStorage.rememberMe = none := by
  induction h with
  | init => rfl
  | login st rm po uo _ ih =>
      cases po with
      | some err => simpa [loginThunk] using ih
      | none =>
          cases uo with
          | error err => simpa [loginThunk] using ih
          | ok payload =>
              cases hp : prepareUserData payload with
              | none => simpa [loginThunk, hp] using ih
              | some user => simp [loginThunk, hp]; split <;> simpa using ih
  | signup st ro uo _ ih =>
      cases ro with
      | some err => simpa [signupThunk] using ih
      | none =>
          cases uo with
          | error err => simpa [signupThunk] using ih
          | ok payload =>
              cases hp : prepareUserData payload with
              | none => simpa [signupThunk, hp] using ih
              | some user => simpa [signupThunk, hp] using ih
  | checkAuth st uo _ ih =>
      cases uo with
      | error err => simpa [checkAuthThunk] using ih
      | ok payload =>
          cases hp : prepareUserData payload with
          | none => simpa [checkAuthThunk, hp] using ih
          | some user => simpa [checkAuthThunk, hp] using ih
  | logout st _ ih => simpa using ih

/- ------------------------------------------------------------------ -/
/- Claim theorems.                                                    -/
/- ------------------------------------------------------------------ -/

/-- C1: for every outcome of the backend logout call (success or
failure), after logoutUser completes the session has
isAuthenticated=false and user=null, and both storage scopes hold
neither the user record nor the remember_me record (on every storage
the auth slice can produce). -/
theorem c1_logout_always_clears (st : BrowserStorage) (sess : Session)
    (postOutcome : Option ApiError) (hreach : Reachable st) :
    (logoutUserOp st sess postOutcome).2.isAuthenticated = false ∧
    (logoutUserOp st sess postOutcome).2.user = none ∧
    (logoutUserOp st sess postOutcome).1.localStorage.user = none ∧
    (logoutUserOp st sess postOutcome).1.sessionStorage.user = none ∧
    (logoutUserOp st sess postOutcome).1.localStorage.rememberMe = none ∧
    (logoutUserOp st sess postOutcome).1.sessionStorage.rememberMe = none := by
  have hrem := reachable_local_rememberMe_none st hreach
  cases postOutcome with
  | none => exact ⟨rfl, rfl, rfl, rfl, hrem, rfl⟩
  | some err => exact ⟨rfl, rfl, rfl, rfl, hrem, rfl⟩

/-- Witness for c1_logout_always_clears at the empty storage with a
successful backend logout. -/
theorem c1_logout_always_clears_witness :
    (logoutUserOp emptyStorage (initialSessionFrom emptyStorage) none).2.isAuthenticated = false ∧
    (logoutUserOp emptyStorage (initialSessionFrom emptyStorage) none).2.user = none ∧
    (logoutUserOp emptyStorage (initialSessionFrom emptyStorage) none).1.localStorage.user = none ∧
    (logoutUserOp emptyStorage (initialSessionFrom emptyStorage) none).1.sessionStorage.user = none ∧
    (logoutUserOp emptyStorage (initialSessionFrom emptyStorage) none).1.localStorage.rememberMe = none ∧
    (logoutUserOp emptyStorage (initialSessionFrom emptyStorage) none).1.sessionStorage.rememberMe = none :=
  c1_logout_always_clears emptyStorage (initialSessionFrom emptyStorage) none Reachable.init

/-- C5: whenever checkAuth's profile fetch fails or yields no user, it
removes the user record from both scopes and the remember_me record
(on every storage the auth slice can produce), resolves to the fixed
rejection value instead of throwing, and the session moves to
status=failed with the generic message. -/
theorem c5_checkAuth_failure_clears (st : BrowserStorage) (sess : Session)
    (uo : Except ApiError (Option LaravelUser)) (hreach : Reachable st)
    (hfail : match uo with
             | .ok p => prepareUserData p = none
             | .error _ => True) :
    (checkAuthThunk st uo).2 = ThunkResult.rejectedWith "User not authenticated." ∧
    (checkAuthThunk st uo).1.localStorage.user = none ∧
    (checkAuthThunk st uo).1.sessionStorage.user = none ∧
    (checkAuthThunk st uo).1.localStorage.rememberMe = none ∧
    (checkAuthThunk st uo).1.sessionStorage.rememberMe = none ∧
    (checkAuthOp st sess uo).2.status = "failed" ∧
    (checkAuthOp st sess uo).2.error = some "User not authenticated." ∧
    (checkAuthOp st sess uo).2.isAuthenticated = false := by
  have hrem := reachable_local_rememberMe_none st hreach
  cases uo with
  | error err =>
      exact ⟨rfl, rfl, rfl, hrem, rfl, rfl, rfl, rfl⟩
  | ok p =>
      have hp : prepareUserData p = none := hfail
      simp only [checkAuthThunk, checkAuthOp, hp]
      refine ⟨?_, ?_, ?_, ?_, ?_, ?_, ?_, ?_⟩ <;> first | exact hrem | rfl | trivial

/-- Witness for c5_checkAuth_failure_clears at the empty storage with a
failing profile fetch. -/
theorem c5_checkAuth_failure_clears_witness :
    (checkAuthThunk emptyStorage (Except.error sampleNetworkError)).2 =
      ThunkResult.rejectedWith "User not authenticated." ∧
    (checkAuthThunk emptyStorage (Except.error sampleNetworkError)).1.localStorage.user = none ∧
    (checkAuthThunk emptyStorage (Except.error sampleNetworkError)).1.sessionStorage.user = none ∧
    (checkAuthThunk emptyStorage (Except.error sampleNetworkError)).1.localStorage.rememberMe = none ∧
    (checkAuthThunk emptyStorage (Except.error sampleNetworkError)).1.sessionStorage.rememberMe = none ∧
    (checkAuthOp emptyStorage (initialSessionFrom emptyStorage) (Except.error sampleNetworkError)).2.status = "failed" ∧
    (checkAuthOp emptyStorage (initialSessionFrom emptyStorage) (Except.error sampleNetworkError)).2.error = some "User not authenticated." ∧
    (checkAuthOp emptyStorage (initialSessionFrom emptyStorage) (Except.error sampleNetworkError)).2.isAuthenticated = false :=
  c5_checkAuth_failure_clears emptyStorage (initialSessionFrom emptyStorage)
    (Except.error sampleNetworkError) Reachable.init trivial

/-- C2 counterexample: starting from fresh storage, a successful
login(rememberMe=true) followed by a successful checkAuth leaves the
user record in BOTH scopes (checkAuth reads the remember preference
from localStorage where it was never written, chooses sessionStorage,
and does not clear the other scope), refuting the at-most-one-scope
invariant as stated. -/
theorem c2_counterexample :
    ((checkAuthThunk
        (loginThunk emptyStorage (some true) none (Except.ok (some sampleLaravelUser))).1
        (Except.ok (some sampleLaravelUser))).1.localStorage.user).isSome = true ∧
    ((checkAuthThunk
        (loginThunk emptyStorage (some true) none (Except.ok (some sampleLaravelUser))).1
        (Except.ok (some sampleLaravelUser))).1.sessionStorage.user).isSome = true :=
  ⟨rfl, rfl⟩

/-- C2 amended: after every successful login the chosen scope holds the
freshly prepared user record and the other scope's user record has been
cleared (rememberMe=true selects the durable scope, rememberMe=false or
an omitted rememberMe selects the tab scope); signup and checkAuth do
not clear the other scope and can leave a duplicate. -/
theorem c2_amended_login_exclusive (st : BrowserStorage) (lu : LaravelUser)
    (rmArg : Option Bool) :
    (jsTruthy rmArg = true →
      (loginThunk st rmArg none (Except.ok (some lu))).1.localStorage.user = prepareUserData (some lu) ∧
      (loginThunk st rmArg none (Except.ok (some lu))).1.sessionStorage.user = none) ∧
    (jsTruthy rmArg = false →
      (loginThunk st rmArg none (Except.ok (some lu))).1.sessionStorage.user = prepareUserData (some lu) ∧
      (loginThunk st rmArg none (Except.ok (some lu))).1.localStorage.user = none) := by
  constructor <;> intro h
  · cases rmArg with
    | none => simp [jsTruthy] at h
    | some b =>
        cases b with
        | false => simp [jsTruthy] at h
        | true => exact ⟨rfl, rfl⟩
  · cases rmArg with
    | none => exact ⟨rfl, rfl⟩
    | some b =>
        cases b with
        | false => exact ⟨rfl, rfl⟩
        | true => simp [jsTruthy] at h

/-- Witness for c2_amended_login_exclusive at both rememberMe choices. -/
theorem c2_amended_login_exclusive_witness :
    ((loginThunk emptyStorage (some true) none (Except.ok (some sampleLaravelUser))).1.localStorage.user = prepareUserData (some sampleLaravelUser) ∧
     (loginThunk emptyStorage (some true) none (Except.ok (some sampleLaravelUser))).1.sessionStorage.user = none) ∧
    ((loginThunk emptyStorage (some false) none (Except.ok (some sampleLaravelUser))).1.sessionStorage.user = prepareUserData (some sampleLaravelUser) ∧
     (loginThunk emptyStorage (some false) none (Except.ok (some sampleLaravelUser))).1.localStorage.user = none) :=
  ⟨(c2_amended_login_exclusive emptyStorage sampleLaravelUser (some true)).1 rfl,
   (c2_amended_login_exclusive emptyStorage sampleLaravelUser (some false)).2 rfl⟩

/-- C10: prepareUserData maps a null/undefined payload to null and any
present payload to a user whose roles and permissions are the payload's
arrays, defaulted to the empty array when absent or null, so every user
the slice ever stores carries array-valued roles and permissions. -/
theorem c10_prepareUserData_shape (lu : LaravelUser) :
    prepareUserData none = none ∧
    (prepareUserData (some lu)).isSome = true ∧
    (prepareUserData (some lu)).map User.roles = some (lu.roles.getD []) ∧
    (prepareUserData (some lu)).map User.permissions = some (lu.permissions.getD []) ∧
    (prepareUserData (some lu)).map User.id = some lu.id ∧
    (prepareUserData (some lu)).map User.name = some lu.name ∧
    (prepareUserData (some lu)).map User.email = some lu.email :=
  ⟨rfl, rfl, rfl, rfl, rfl, rfl, rfl⟩

/-- A structured validation failure whose single field carries no
string messages, so Object.values(errors).flat().join(' ') is the empty
string. -/
def sampleEmptyMessagesError : ApiError :=
  { response := some { errors := some [("email", [])], message := none }
    message := "Request failed with status code 422" }

/-- C3 counterexample: four concrete rejected operations on which the
claimed error derivation is false as stated. (a) A rejected checkAuth
whose underlying error carries a backend field-level validation message
surfaces the fixed generic rejection value, not the concatenation.
(b) A rejected login whose profile fetch yields no user carries the
fixed data-not-found message, which is neither a backend message nor
the operation's generic fallback. (c) A transport failure with no
backend response surfaces the error's own message instead of a generic
fallback. (d) A validation object whose fields carry no string
messages yields the unknown-error text, not the (empty) concatenation
of the present field-level messages. -/
theorem c3_counterexample :
    getLaravelErrorMessage sampleValidationError "fallback" = "The email field is required." ∧
    (checkAuthOp emptyStorage (initialSessionFrom emptyStorage)
        (Except.error sampleValidationError)).2.status = "failed" ∧
    (checkAuthOp emptyStorage (initialSessionFrom emptyStorage)
        (Except.error sampleValidationError)).2.error = some "User not authenticated." ∧
    (checkAuthOp emptyStorage (initialSessionFrom emptyStorage)
        (Except.error sampleValidationError)).2.error ≠ some "The email field is required." ∧
    (loginOp emptyStorage (initialSessionFrom emptyStorage) none none
        (Except.ok none)).2.status = "failed" ∧
    (loginOp emptyStorage (initialSessionFrom emptyStorage) none none
        (Except.ok none)).2.error = some "User data not found after login." ∧
    (loginOp emptyStorage (initialSessionFrom emptyStorage) none none
        (Except.ok none)).2.error ≠ some "Login failed. Please check your credentials." ∧
    (loginOp emptyStorage (initialSessionFrom emptyStorage) none none
        (Except.ok none)).2.error ≠ some "An unknown error occurred." ∧
    sampleNetworkError.response = none ∧
    (loginOp emptyStorage (initialSessionFrom emptyStorage) none (some sampleNetworkError)
        (Except.ok none)).2.error = some "Network Error" ∧
    (loginOp emptyStorage (initialSessionFrom emptyStorage) none (some sampleNetworkError)
        (Except.ok none)).2.error ≠ some "Login failed. Please check your credentials." ∧
    (loginOp emptyStorage (initialSessionFrom emptyStorage) none (some sampleNetworkError)
        (Except.ok none)).2.error ≠ some "An unknown error occurred." ∧
    getLaravelErrorMessage sampleEmptyMessagesError "Login failed. Please check your credentials." = "" ∧
    (loginOp emptyStorage (initialSessionFrom emptyStorage) none (some sampleEmptyMessagesError)
        (Except.ok none)).2.error = some "An unknown error occurred." ∧
    (loginOp emptyStorage (initialSessionFrom emptyStorage) none (some sampleEmptyMessagesError)
        (Except.ok none)).2.error ≠ some "" := by
  refine ⟨rfl, rfl, rfl, ?_, rfl, rfl, ?_, ?_, rfl, rfl, ?_, ?_, rfl, rfl, ?_⟩ <;> decide

/-- The error-derivation chain in the words of the amended claim: the
space-joined concatenation of all field-level validation messages when
the backend supplied structured errors; else the backend's nonempty
general message; else the transport error's own nonempty message; else
the operation's generic fallback. Written independently of
getLaravelErrorMessage for a refinement comparison. -/
def specRejectionMessage (err : ApiError) (fallback : String) : String :=
  match err.response.bind LaravelErrorData.errors with
  | some errs => String.intercalate " " (errs.map Prod.snd).flatten
  | none =>
      match err.response.bind LaravelErrorData.message with
      | some m => if !m.isEmpty then m else jsOrStr err.message fallback
      | none => jsOrStr err.message fallback

/-- The source's error extraction agrees with the amended chain. -/
theorem getLaravelErrorMessage_eq_spec (err : ApiError) (fb : String) :
    getLaravelErrorMessage err fb = specRejectionMessage err fb := by
  obtain ⟨resp, msg⟩ := err
  cases resp with
  | none => rfl
  | some d =>
      obtain ⟨errs, m⟩ := d
      cases errs <;> cases m <;> rfl

/-- C3 amended: every rejected signup or login moves the session to
status=failed with the authentication fields forced clear; when the
rejection comes from a failing network call the error is derived by the
chain of specRejectionMessage over the operation's fallback (an empty
final payload is replaced by the unknown-error text), while a rejection
caused by the profile fetch yielding no user carries the fixed
data-not-found message of the operation; a rejected checkAuth also
fails and clears, but its error is always the fixed generic
not-authenticated message, never the backend-derived chain. -/
theorem c3_amended_rejection_behavior (st : BrowserStorage) (sess : Session)
    (rmArg : Option Bool) (err : ApiError) (uo : Except ApiError (Option LaravelUser))
    (hfail : match uo with
             | .ok p => prepareUserData p = none
             | .error _ => True) :
    ((loginOp st sess rmArg (some err) uo).2.status = "failed" ∧
     (loginOp st sess rmArg (some err) uo).2.isAuthenticated = false ∧
     (loginOp st sess rmArg (some err) uo).2.user = none ∧
     (loginOp st sess rmArg (some err) uo).2.rememberMe = false ∧
     (loginOp st sess rmArg (some err) uo).2.error =
       some (jsOrStr (specRejectionMessage err "Login failed. Please check your credentials.")
                     "An unknown error occurred.")) ∧
    ((loginOp st sess rmArg none (Except.error err)).2.status = "failed" ∧
     (loginOp st sess rmArg none (Except.error err)).2.isAuthenticated = false ∧
     (loginOp st sess rmArg none (Except.error err)).2.user = none ∧
     (loginOp st sess rmArg none (Except.error err)).2.rememberMe = false ∧
     (loginOp st sess rmArg none (Except.error err)).2.error =
       some (jsOrStr (specRejectionMessage err "Login failed. Please check your credentials.")
                     "An unknown error occurred.")) ∧
    ((signupOp st sess (some err) uo).2.status = "failed" ∧
     (signupOp st sess (some err) uo).2.isAuthenticated = false ∧
     (signupOp st sess (some err) uo).2.user = none ∧
     (signupOp st sess (some err) uo).2.rememberMe = false ∧
     (signupOp st sess (some err) uo).2.error =
       some (jsOrStr (specRejectionMessage err "Signup failed. Please try again.")
                     "An unknown error occurred.")) ∧
    ((signupOp st sess none (Except.error err)).2.status = "failed" ∧
     (signupOp st sess none (Except.error err)).2.isAuthenticated = false ∧
     (signupOp st sess none (Except.error err)).2.user = none ∧
     (signupOp st sess none (Except.error err)).2.rememberMe = false ∧
     (signupOp st sess none (Except.error err)).2.error =
       some (jsOrStr (specRejectionMessage err "Signup failed. Please try again.")
                     "An unknown error occurred.")) ∧
    ((loginOp st sess rmArg none (Except.ok none)).2.status = "failed" ∧
     (loginOp st sess rmArg none (Except.ok none)).2.isAuthenticated = false ∧
     (loginOp st sess rmArg none (Except.ok none)).2.user = none ∧
     (loginOp st sess rmArg none (Except.ok none)).2.rememberMe = false ∧
     (loginOp st sess rmArg none (Except.ok none)).2.error =
       some "User data not found after login.") ∧
    ((signupOp st sess none (Except.ok none)).2.status = "failed" ∧
     (signupOp st sess none (Except.ok none)).2.isAuthenticated = false ∧
     (signupOp st sess none (Except.ok none)).2.user = none ∧
     (signupOp st sess none (Except.ok none)).2.rememberMe = false ∧
     (signupOp st sess none (Except.ok none)).2.error =
       some "User data not found after signup.") ∧
    ((checkAuthOp st sess uo).2.status = "failed" ∧
     (checkAuthOp st sess uo).2.isAuthenticated = false ∧
     (checkAuthOp st sess uo).2.user = none ∧
     (checkAuthOp st sess uo).2.rememberMe = false ∧
     (checkAuthOp st sess uo).2.error = some "User not authenticated.") := by
  have hspec1 := getLaravelErrorMessage_eq_spec err "Login failed. Please check your credentials."
  have hspec2 := getLaravelErrorMessage_eq_spec err "Signup failed. Please try again."
  refine ⟨⟨rfl, rfl, rfl, rfl, ?_⟩, ⟨rfl, rfl, rfl, rfl, ?_⟩,
          ⟨rfl, rfl, rfl, rfl, ?_⟩, ⟨rfl, rfl, rfl, rfl, ?_⟩,
          ⟨rfl, rfl, rfl, rfl, rfl⟩, ⟨rfl, rfl, rfl, rfl, rfl⟩, ?_⟩
  · simp only [loginOp, loginThunk, rejectedReducer, pendingReducer, hspec1]
  · simp only [loginOp, loginThunk, rejectedReducer, pendingReducer, hspec1]
  · simp only [signupOp, signupThunk, rejectedReducer, pendingReducer, hspec2]
  · simp only [signupOp, signupThunk, rejectedReducer, pendingReducer, hspec2]
  · cases uo with
    | error e => exact ⟨rfl, rfl, rfl, rfl, rfl⟩
    | ok p =>
        have hp : prepareUserData p = none := hfail
        simp only [checkAuthOp, checkAuthThunk, hp]
        exact ⟨rfl, rfl, rfl, rfl, rfl⟩

/-- Witness for c3_amended_rejection_behavior: a transport failure with
message "Network Error" surfaces that message for login, the structured
validation failure surfaces the joined field messages for signup, a
null-profile login and signup surface the fixed data-not-found
messages, and a failing checkAuth surfaces the fixed generic message. -/
theorem c3_amended_rejection_behavior_witness :
    (loginOp emptyStorage (initialSessionFrom emptyStorage) none (some sampleNetworkError)
        (Except.error sampleNetworkError)).2.error = some "Network Error" ∧
    (signupOp emptyStorage (initialSessionFrom emptyStorage) (some sampleValidationError)
        (Except.error sampleValidationError)).2.error = some "The email field is required." ∧
    (loginOp emptyStorage (initialSessionFrom emptyStorage) none none
        (Except.ok none)).2.error = some "User data not found after login." ∧
    (signupOp emptyStorage (initialSessionFrom emptyStorage) none
        (Except.ok none)).2.error = some "User data not found after signup." ∧
    (checkAuthOp emptyStorage (initialSessionFrom emptyStorage)
        (Except.error sampleNetworkError)).2.status = "failed" ∧
    (checkAuthOp emptyStorage (initialSessionFrom emptyStorage)
        (Except.error sampleNetworkError)).2.error = some "User not authenticated." := by
  have h1 := c3_amended_rejection_behavior emptyStorage (initialSessionFrom emptyStorage)
    none sampleNetworkError (Except.error sampleNetworkError) trivial
  have h2 := c3_amended_rejection_behavior emptyStorage (initialSessionFrom emptyStorage)
    none sampleValidationError (Except.error sampleValidationError) trivial
  exact ⟨h1.1.2.2.2.2.trans rfl, h2.2.2.1.2.2.2.2.trans rfl,
         h1.2.2.2.2.1.2.2.2.2, h1.2.2.2.2.2.1.2.2.2.2,
         h1.2.2.2.2.2.2.1, h1.2.2.2.2.2.2.2.2.2.2⟩

/-- C4: for every request with a state-changing method (after the
interceptor's lowercasing) whose url is not the CSRF priming endpoint,
the priming GET goes on the wire first and the original request only
after it; when the priming call fails, the original request is never
sent and the caller sees the distinguishable CSRF-acquisition-failure
rejection. -/
theorem c4_csrf_priming (primeOk : Bool) (config : ReqConfig)
    (hm : methodsRequiringCSRF.contains (jsToLower config.method) = true)
    (hu : urlIsCsrfCookie config.url = false) :
    (sendRequest primeOk config).1 =
      (if primeOk then [csrfPrimingRequest, config] else [csrfPrimingRequest]) ∧
    (primeOk = false →
      config ∉ (sendRequest primeOk config).1 ∧
      (sendRequest primeOk config).2 =
        InterceptOutcome.rejectedWith "Failed to obtain CSRF token.") := by
  have hm2 : jsToLower config.method ∈ methodsRequiringCSRF := by
    simpa using hm
  have htrace : (sendRequest primeOk config).1 =
      (if primeOk then [csrfPrimingRequest, config] else [csrfPrimingRequest]) := by
    simp only [sendRequest, hm2, hu]
    cases primeOk <;> simp [hm2]
  refine ⟨htrace, ?_⟩
  intro hfalse
  subst hfalse
  constructor
  · rw [htrace]
    simp only [if_neg (by simp : ¬ (false = true)), List.mem_singleton]
    intro heq
    have hck : urlIsCsrfCookie config.url = true := by
      rw [heq]
      decide
    rw [hu] at hck
    exact Bool.false_ne_true hck
  · simp [sendRequest, hm2, hu]

/-- Witness for c4_csrf_priming: a POST to /login with a failing
priming call is never sent and is rejected with the CSRF error. -/
theorem c4_csrf_priming_witness :
    (sendRequest false { method := "POST", url := "/login" }).1 = [csrfPrimingRequest] ∧
    ({ method := "POST", url := "/login" } : ReqConfig) ∉
      (sendRequest false { method := "POST", url := "/login" }).1 ∧
    (sendRequest false { method := "POST", url := "/login" }).2 =
      InterceptOutcome.rejectedWith "Failed to obtain CSRF token." := by
  have h := c4_csrf_priming false { method := "POST", url := "/login" }
    (by decide) (by decide)
  exact ⟨h.1.trans rfl, (h.2 rfl).1, (h.2 rfl).2⟩

/-- C6: selecting a column that is not the current sort key yields that
column with ascending direction; selecting the current key strictly
alternates the direction, so a double selection of the same column
restores the original configuration (it never resets). -/
theorem c6_handleSort_toggle (prev : SortConfig) (column : String) :
    (prev.key ≠ column → handleSort prev column = { key := column, direction := "asc" }) ∧
    (prev.key = column → prev.direction = "asc" →
      handleSort prev column = { key := column, direction := "desc" }) ∧
    (prev.key = column → prev.direction = "desc" →
      handleSort prev column = { key := column, direction := "asc" }) ∧
    (prev.key = column → (prev.direction = "asc" ∨ prev.direction = "desc") →
      handleSort (handleSort prev column) column = prev) := by
  obtain ⟨k, d⟩ := prev
  refine ⟨?_, ?_, ?_, ?_⟩
  · intro h
    simp only [handleSort]
    have hk : (k == column) = false := by
      simpa using h
    simp [hk]
  · intro hk hd
    subst hk
    subst hd
    simp [handleSort]
  · intro hk hd
    subst hk
    subst hd
    simp [handleSort]
  · intro hk hd
    subst hk
    cases hd with
    | inl h => subst h; simp [handleSort]
    | inr h => subst h; simp [handleSort]

/-- Witness for c6_handleSort_toggle on the hook's initial sort
configuration. -/
theorem c6_handleSort_toggle_witness :
    handleSort { key := "intitule", direction := "asc" } "intitule" =
      { key := "intitule", direction := "desc" } ∧
    handleSort (handleSort { key := "intitule", direction := "asc" } "intitule") "intitule" =
      { key := "intitule", direction := "asc" } ∧
    handleSort { key := "intitule", direction := "asc" } "secteur" =
      { key := "secteur", direction := "asc" } :=
  ⟨(c6_handleSort_toggle { key := "intitule", direction := "asc" } "intitule").2.1 rfl rfl,
   (c6_handleSort_toggle { key := "intitule", direction := "asc" } "intitule").2.2.2 rfl
     (Or.inl rfl),
   (c6_handleSort_toggle { key := "intitule", direction := "asc" } "secteur").1 (by decide)⟩

/-- Two filter passes over a list commute. -/
theorem filter_comm_secteur (p q : Secteur → Bool) (l : List Secteur) :
    List.filter p (List.filter q l) = List.filter q (List.filter p l) := by
  simp [List.filter_filter, Bool.and_comm]

/-- The search stage commutes with a single column-filter step. -/
theorem searchStep_filterStep_comm (term : String) (f : ColumnFilter) (l : List Secteur) :
    filterStep f (searchStep term l) = searchStep term (filterStep f l) := by
  unfold searchStep filterStep
  split <;> split <;> simp [List.filter_filter, Bool.and_comm]

/-- Unfolding lemma for the filter loop. -/
theorem filtersStep_cons (f : ColumnFilter) (fs : List ColumnFilter) (l : List Secteur) :
    filtersStep (f :: fs) l = filtersStep fs (filterStep f l) :=
  rfl

/-- C7: the search stage and the column-filter loop of
applyFiltersAndSorting commute (the projection is the same in either
order), and with an empty search term (falsy, so the search stage is
skipped) the projection is exactly the sorted column-filtered list. -/
theorem c7_search_filters_commute (l : List Secteur) (term : String)
    (fs : List ColumnFilter) (sc : SortConfig) :
    filtersStep fs (searchStep term l) = searchStep term (filtersStep fs l) ∧
    applyFiltersAndSorting l term fs sc =
      sortStep sc (searchStep term (filtersStep fs l)) ∧
    applyFiltersAndSorting l "" fs sc = sortStep sc (filtersStep fs l) := by
  have hcomm : ∀ m : List Secteur,
      filtersStep fs (searchStep term m) = searchStep term (filtersStep fs m) := by
    induction fs with
    | nil => intro m; rfl
    | cons f fs ih =>
        intro m
        rw [filtersStep_cons, filtersStep_cons, searchStep_filterStep_comm, ih]
  refine ⟨hcomm l, ?_, ?_⟩
  · unfold applyFiltersAndSorting
    rw [hcomm l]
  · rfl

/-- C8 counterexample: loading a nonempty list and then an empty one
leaves the filter options at the previous load's distinct values, not
at the distinct values of the data just loaded (updateFilterOptions
skips empty data), refuting the recomputed-on-every-load claim. -/
theorem c8_counterexample :
    (loadSecteurs (loadSecteurs initialHookState (Except.ok [sampleSecteur]))
        (Except.ok [])).secteurs = [] ∧
    (loadSecteurs (loadSecteurs initialHookState (Except.ok [sampleSecteur]))
        (Except.ok [])).filters.map ColumnFilter.options = [[some "Tertiaire"]] ∧
    (loadSecteurs (loadSecteurs initialHookState (Except.ok [sampleSecteur]))
        (Except.ok [])).filters.map ColumnFilter.options ≠
      [jsSetDistinct ((loadSecteurs (loadSecteurs initialHookState (Except.ok [sampleSecteur]))
        (Except.ok [])).secteurs.map Secteur.secteur)] := by
  refine ⟨rfl, rfl, ?_⟩
  intro h
  exact absurd h (by decide)

/-- C8 amended: a load returning a nonempty list replaces the single
filter's options with the distinct secteur values of that data in
first-occurrence order, while a load returning an empty list leaves the
filter options (and the previous option values) unchanged; the
authoritative list itself always becomes the loaded data. -/
theorem c8_amended_options_recompute (st : HookState) (f : ColumnFilter)
    (data : List Secteur) (hf : st.filters = [f]) (hne : data ≠ []) :
    (loadSecteurs st (Except.ok data)).filters =
      [{ f with options := jsSetDistinct (data.map Secteur.secteur) }] ∧
    (loadSecteurs st (Except.ok data)).secteurs = data ∧
    (loadSecteurs st (Except.ok [])).filters = st.filters ∧
    (loadSecteurs st (Except.ok [])).secteurs = [] := by
  cases data with
  | nil => exact absurd rfl hne
  | cons a rest =>
      refine ⟨?_, rfl, rfl, rfl⟩
      simp [loadSecteurs, updateFilterOptions, hf]

/-- Witness for c8_amended_options_recompute on the hook's initial
state and a singleton load. -/
theorem c8_amended_options_recompute_witness :
    (loadSecteurs initialHookState (Except.ok [sampleSecteur])).filters =
      [{ key := "secteur", value := "", placeholder := "Tous les secteurs"
         options := [some "Tertiaire"] }] ∧
    (loadSecteurs initialHookState (Except.ok [sampleSecteur])).secteurs = [sampleSecteur] ∧
    (loadSecteurs initialHookState (Except.ok [])).filters = initialHookState.filters ∧
    (loadSecteurs initialHookState (Except.ok [])).secteurs = [] :=
  c8_amended_options_recompute initialHookState
    { key := "secteur", value := "", placeholder := "Tous les secteurs", options := [] }
    [sampleSecteur] rfl (by simp)

/-- C9: when the backend delete call of a pending deletion fails, the
confirm handler leaves the entire hook state (in particular the
authoritative secteurs list) unchanged, triggers no reload, and raises
exactly one alert carrying the backend's message verbatim behind the
fixed wrapping prefix. -/
theorem c9_delete_failure_preserves_list (st : HookState) (sec : Secteur) (err : ApiError)
    (hpending : st.secteurToDelete = some sec) :
    (handleDeleteConfirm st (some err)).1 = st ∧
    (handleDeleteConfirm st (some err)).1.secteurs = st.secteurs ∧
    HookEffect.reloadList ∉ (handleDeleteConfirm st (some err)).2 ∧
    (∀ d m, err.response = some d → d.message = some m → ¬m.isEmpty →
      (handleDeleteConfirm st (some err)).2 =
        [HookEffect.alertMsg (deleteAlertPrefix ++ m)]) := by
  refine ⟨?_, ?_, ?_, ?_⟩
  · simp [handleDeleteConfirm, hpending]
  · simp [handleDeleteConfirm, hpending]
  · simp [handleDeleteConfirm, hpending]
  · intro d m hd hm hne
    simp [handleDeleteConfirm, hpending, hd, hm, jsOptOrStr, jsOrStr, hne]

/-- Witness for c9_delete_failure_preserves_list: a pending deletion
whose backend call fails with the general message of
sampleMessageError. -/
theorem c9_delete_failure_preserves_list_witness :
    (handleDeleteConfirm
        { initialHookState with secteurToDelete := some sampleSecteur, isDeleteModalOpen := true }
        (some sampleMessageError)).1 =
      { initialHookState with secteurToDelete := some sampleSecteur, isDeleteModalOpen := true } ∧
    HookEffect.reloadList ∉
      (handleDeleteConfirm
        { initialHookState with secteurToDelete := some sampleSecteur, isDeleteModalOpen := true }
        (some sampleMessageError)).2 ∧
    (handleDeleteConfirm
        { initialHookState with secteurToDelete := some sampleSecteur, isDeleteModalOpen := true }
        (some sampleMessageError)).2 =
      [HookEffect.alertMsg "Erreur lors de la suppression du secteur: Secteur in use."] := by
  have h := c9_delete_failure_preserves_list
    { initialHookState with secteurToDelete := some sampleSecteur, isDeleteModalOpen := true }
    sampleSecteur sampleMessageError rfl
  exact ⟨h.1, h.2.2.1, (h.2.2.2 _ _ rfl rfl (by decide)).trans rfl⟩
